import Mathlib

/-!
Verification of the litellm outbound-transport specification and the MCP
request-handler code.

The MCP request handler (`MCPRequestHandler` in
`litellm/proxy/_experimental/mcp_server/auth/user_api_key_auth_mcp.py`) is
embedded directly from its source.  The transport layer (TransportFactory,
TLSContextBuilder, SessionPool, RequestFacade) has only its tests in the
source tree, so it is modelled from the specification, as marked on each
definition.
-/

namespace LiteLLM

/-! ## MCP request handler: embedded from `user_api_key_auth_mcp.py` -/

namespace MCP

/-- A JSON value, as produced by the JSON library used by
`process_mcp_request` (`json.loads`).  The parser itself is library code,
modelled abstractly as a `String → Option JsonValue` function wherever it
is needed; a parse failure (`json.JSONDecodeError`) is `none`. -/
inductive JsonValue where
  | null : JsonValue
  | bool (b : Bool) : JsonValue
  | num (n : Int) : JsonValue
  | str (s : String) : JsonValue
  | arr (xs : List JsonValue) : JsonValue
  | obj (kvs : List (String × JsonValue)) : JsonValue
deriving Repr

/-- Header name `SpecialHeaders.custom_litellm_api_key.value` =
`"x-litellm-api-key"` (constant declared outside the embedded file). -/
def LITELLM_API_KEY_HEADER_NAME_PRIMARY : String := "x-litellm-api-key"

/-- Header name `SpecialHeaders.openai_authorization.value` =
`"Authorization"` (constant declared outside the embedded file). -/
def LITELLM_API_KEY_HEADER_NAME_SECONDARY : String := "Authorization"

/-- Header name `SpecialHeaders.mcp_auth.value` (constant declared outside
the embedded file). -/
def LITELLM_MCP_AUTH_HEADER_NAME : String := "x-mcp-auth"

/-- Header name `SpecialHeaders.mcp_servers.value` (constant declared
outside the embedded file). -/
def LITELLM_MCP_SERVERS_HEADER_NAME : String := "x-mcp-servers"

/-- Starlette `Headers` values: a list of name/value pairs.  Lookup is
case-insensitive, first match wins. -/
def Headers := List (String × String)

/-- ASCII lowercasing of a single character, as `bytes.lower()` applies to
each byte of a header name. -/
def lowerChar (c : Char) : Char :=
  if 'A' ≤ c ∧ c ≤ 'Z' then Char.ofNat (c.toNat + 32) else c

/-- ASCII lowercasing of a header name (Starlette lowercases the raw
latin-1 header bytes). -/
def lowerString (s : String) : String :=
  String.mk (s.data.map lowerChar)

/-- `Headers.get name`: case-insensitive lookup, `none` when absent
(Python `None`). -/
def Headers.get (headers : Headers) (name : String) : Option String :=
  (headers.find? (fun kv => lowerString kv.1 = lowerString name)).map
    (fun kv => kv.2)

/-- Python truthiness of an `Optional[str]`: `None` and `""` are falsy. -/
def pyTruthy : Option String → Bool
  | some v => v ≠ ""
  | none => false

/-- One raw ASGI header entry as seen by `_safe_get_headers_from_scope`:
either a well-formed `[name, value]` byte pair (latin-1 decoding of the two
byte strings), or an entry whose processing raises
(`UnicodeDecodeError`/`AttributeError`/`TypeError`). -/
inductive ScopeHeader where
  | wellFormed (name : String) (value : String) : ScopeHeader
  | malformed : ScopeHeader
deriving Repr, DecidableEq

/-- Whether a raw entry raises during the dict comprehension. -/
def ScopeHeader.raises : ScopeHeader → Bool
  | .wellFormed _ _ => false
  | .malformed => true

/-- Decode of a well-formed entry. -/
def ScopeHeader.decoded : ScopeHeader → Option (String × String)
  | .wellFormed n v => some (n, v)
  | .malformed => none

/-- Embeds `MCPRequestHandler._safe_get_headers_from_scope`: decode every
`[name, value]` pair of the scope's header list; the whole comprehension is
wrapped in one `try`, so if any entry raises the result is the empty
`Headers({})`. -/
def safe_get_headers_from_scope (raw_headers : List ScopeHeader) : Headers :=
  if raw_headers.any ScopeHeader.raises then []
  else raw_headers.filterMap ScopeHeader.decoded

/-- Embeds `MCPRequestHandler.get_litellm_api_key_from_headers`: return the
`x-litellm-api-key` header when truthy, else the `Authorization` header when
truthy, else `None`. -/
def get_litellm_api_key_from_headers (headers : Headers) : Option String :=
  let api_key := Headers.get headers LITELLM_API_KEY_HEADER_NAME_PRIMARY
  if pyTruthy api_key then api_key
  else
    let auth_header := Headers.get headers LITELLM_API_KEY_HEADER_NAME_SECONDARY
    if pyTruthy auth_header then auth_header
    else none

/-- Embeds the `mcp_servers` computation of
`MCPRequestHandler.process_mcp_request` (lines 55-64): if the
`x-mcp-servers` header is truthy, `json.loads` it; a parse failure or a
non-list parse leaves `mcp_servers = None`.  `loads` is the abstract JSON
library parser. -/
def parse_mcp_servers (loads : String → Option JsonValue)
    (mcp_servers_header : Option String) : Option (List JsonValue) :=
  if pyTruthy mcp_servers_header then
    match mcp_servers_header with
    | some s =>
      match loads s with
      | some (JsonValue.arr l) => some l
      | some _ => none
      | none => none
    | none => none
  else none

/-- Embeds the header-processing part of
`MCPRequestHandler.process_mcp_request` (lines 50-64): extract headers from
the scope, compute the API key (defaulting to `""`), the MCP auth header,
and the parsed MCP server list.  The subsequent `user_api_key_auth` call is
an external collaborator and is outside this function. -/
def process_mcp_request (loads : String → Option JsonValue)
    (scope : List ScopeHeader) :
    String × Option String × Option (List JsonValue) :=
  let headers := safe_get_headers_from_scope scope
  let litellm_api_key := (get_litellm_api_key_from_headers headers).getD ""
  let mcp_auth_header := Headers.get headers LITELLM_MCP_AUTH_HEADER_NAME
  let mcp_servers_header := Headers.get headers LITELLM_MCP_SERVERS_HEADER_NAME
  let mcp_servers := parse_mcp_servers loads mcp_servers_header
  (litellm_api_key, mcp_auth_header, mcp_servers)

/-- Embeds `MCPRequestHandler.get_allowed_mcp_servers` (lines 129-156): if
the team's allowed-server list is non-empty, keep the key's servers that
are also in the team's list; otherwise use the key's list; finally
`list(set(...))` deduplicates.  The two database lookups
(`_get_allowed_mcp_servers_for_key` / `_get_allowed_mcp_servers_for_team`)
are passed in as the two lists they return. -/
def get_allowed_mcp_servers (allowed_mcp_servers_for_key : List String)
    (allowed_mcp_servers_for_team : List String) : List String :=
  let allowed_mcp_servers :=
    if allowed_mcp_servers_for_team.length > 0 then
      allowed_mcp_servers_for_key.filter
        (fun s => s ∈ allowed_mcp_servers_for_team)
    else allowed_mcp_servers_for_key
  allowed_mcp_servers.dedup

end MCP

/-! ## Transport layer: modelled from the spec

The implementation (`AsyncHTTPHandler._create_async_transport`,
`AsyncHTTPHandler._create_aiohttp_transport`, `AsyncHTTPHandler._get_ssl_context`,
`LiteLLMAiohttpTransport`) is not in the source tree; only its tests are.
Every definition below is therefore modelled from the spec, following its §3
data model and §4 component contracts. -/

namespace Transport

/-- Modelled from the spec: the fixed, versioned bundled CA certificate
path (§4.2 "Base context always trusts the bundled system CA store (a
fixed, versioned certificate bundle path)"; the tests identify it as
`certifi.where()`).  The implementation is not under src/. -/
def bundledCAPath : String := "certifi/cacert.pem"

/-- Modelled from the spec: a TLS context (§3): trust roots (the CA bundle
source, `none` when no bundle is loaded because verification is disabled),
verification mode, and optional cipher-suite floor.  Immutable after
construction.  The implementation is not under src/. -/
structure TLSContext where
  caSource : Option String
  verify : Bool
  cipherFloor : Option String
deriving Repr, DecidableEq

/-- Modelled from the spec: the `sslVerify` configuration field (§3): a
boolean, or a pre-built TLS context.  The implementation is not under
src/. -/
inductive SslVerify where
  | flag (b : Bool) : SslVerify
  | preBuilt (ctx : TLSContext) : SslVerify
deriving Repr, DecidableEq

/-- Modelled from the spec: `TLSContextBuilder.buildContext` (§4.2).  The
implementation (`AsyncHTTPHandler._get_ssl_context` and the aiohttp SSL
setup) is not under src/.  Returns the context together with a flag
recording whether the CA bundle was loaded during the call:
- pre-built context supplied → used verbatim, no bundle loading;
- `sslVerify = false` → verification disabled entirely, no bundle loading;
- `sslVerify = true` → fresh context trusting the bundled CA store, with
  the optional cipher floor appended. -/
def buildContext (sslVerify : SslVerify) (sslSecurityLevel : Option String) :
    TLSContext × Bool :=
  match sslVerify with
  | .preBuilt ctx => (ctx, false)
  | .flag false =>
      ({ caSource := none, verify := false, cipherFloor := sslSecurityLevel },
       false)
  | .flag true =>
      ({ caSource := some bundledCAPath, verify := true,
         cipherFloor := sslSecurityLevel },
       true)

/-- Modelled from the spec: the immutable configuration snapshot (§3).
The implementation (module-level litellm flags read at handler
construction) is not under src/. -/
structure Configuration where
  sslVerify : SslVerify
  sslSecurityLevel : Option String
  forceIPv4 : Bool
  disableAlternateTransport : Bool
  trustEnvironmentDefault : Bool
deriving Repr, DecidableEq

/-- Modelled from the spec: the opaque transport-selection result (§3),
one of PooledTransport, StandardIPv4Transport, UseSystemDefault.  The
implementation is not under src/. -/
inductive TransportHandle where
  | pooledTransport (tls : TLSContext) : TransportHandle
  | standardIPv4Transport : TransportHandle
  | useSystemDefault : TransportHandle
deriving Repr, DecidableEq

/-- Modelled from the spec: `TransportFactory.selectTransport` (§4.1
decision table).  The implementation
(`AsyncHTTPHandler._create_async_transport`) is not under src/. -/
def selectTransport (config : Configuration) : TransportHandle :=
  if config.disableAlternateTransport then
    if config.forceIPv4 then .standardIPv4Transport else .useSystemDefault
  else
    .pooledTransport (buildContext config.sslVerify config.sslSecurityLevel).1

/-- Modelled from the spec: the SSL setting carried by a pooled-transport
connector (§4.2/§4.3): either "verification disabled entirely" or a TLS
context.  The implementation (aiohttp `TCPConnector` `_ssl` slot) is not
under src/. -/
inductive SSLSetting where
  | noVerify : SSLSetting
  | context (ctx : TLSContext) : SSLSetting
deriving Repr, DecidableEq

/-- Modelled from the spec: the SSL setting the pooled transport's
connector is constructed with (§4.2): with `sslVerify = false` verification
is disabled entirely; otherwise the connector carries the context returned
by `buildContext`.  The implementation is not under src/. -/
def connectorSSLSetting (sslVerify : SslVerify)
    (sslSecurityLevel : Option String) : SSLSetting :=
  match sslVerify with
  | .flag false => .noVerify
  | .flag true => .context (buildContext sslVerify sslSecurityLevel).1
  | .preBuilt ctx => .context ctx

/-- Follows the spec's words for the comparison side of the refinement
claim: the SSL setting of a connector constructed by the underlying HTTP
library with verification disabled (§4.2 "constructing a no-verification
client in any HTTP library" — the tests use
`aiohttp.TCPConnector(verify_ssl=False)`): peer certificate and hostname
checks are skipped entirely. -/
def libraryNoVerifySSLSetting : SSLSetting := .noVerify

/-- Modelled from the spec: `trustEnvironment` resolution at session
creation (§4.3): the environment variable (`AIOHTTP_TRUST_ENV`), parsed
case-sensitively, takes precedence when present and equal to `"True"`;
in every other case — including present-and-`"False"` and absent — the
configured default governs.  The implementation is not under src/. -/
def resolveTrustEnv (envVar : Option String) (configuredDefault : Bool) :
    Bool :=
  if envVar = some "True" then true else configuredDefault

/-- Modelled from the spec: the builder is "stateless per call,
deterministic given identical inputs" (§2) and "repeatable,
side-effect-free w.r.t. global state" (§8): a call reads its inputs only
and returns the surrounding global state unchanged.  The global state is
abstract.  The implementation is not under src/. -/
def buildContextCall {σ : Type} (globalState : σ) (sslVerify : SslVerify)
    (sslSecurityLevel : Option String) : (TLSContext × Bool) × σ :=
  (buildContext sslVerify sslSecurityLevel, globalState)

/-- Modelled from the spec: the result and post-state of the n-th
successive `buildContext` call (1-based) with fixed inputs, obtained by
iterating `buildContextCall` through the global state. -/
def nthBuildContext {σ : Type} (globalState : σ) (sslVerify : SslVerify)
    (sslSecurityLevel : Option String) : Nat → (TLSContext × Bool) × σ
  | 0 => buildContextCall globalState sslVerify sslSecurityLevel
  | n + 1 =>
      let prev := nthBuildContext globalState sslVerify sslSecurityLevel n
      buildContextCall prev.2 sslVerify sslSecurityLevel

/-- Modelled from the spec: a live session of the pooled backend (§3,
§4.3): owns a connector bound to an SSL setting, the resolved
trust-environment flag, and the execution context it was bound to at
creation.  `id` distinguishes instances (object identity).  The
implementation (`LiteLLMAiohttpTransport` session objects) is not under
src/. -/
structure Session where
  id : Nat
  ssl : SSLSetting
  trustEnv : Bool
  bindingCtx : Nat
deriving Repr, DecidableEq

/-- Modelled from the spec: the pooled backend's state (§3, §4.3): the SSL
setting its connector is built with, the configured trust-environment
default, the environment-variable value read at session creation, the
lazily-created current session (`none` before first use and after
`close()`), and a fresh-id counter for new session instances.  The
implementation (`LiteLLMAiohttpTransport`) is not under src/. -/
structure SessionPool where
  ssl : SSLSetting
  trustEnvDefault : Bool
  trustEnvVar : Option String
  session : Option Session
  nextId : Nat
deriving Repr, DecidableEq

/-- Modelled from the spec: a SessionPool as just constructed by the
factory, before any request: no session exists yet. -/
def SessionPool.mk0 (ssl : SSLSetting) (trustEnvDefault : Bool)
    (trustEnvVar : Option String) : SessionPool :=
  { ssl := ssl, trustEnvDefault := trustEnvDefault,
    trustEnvVar := trustEnvVar, session := none, nextId := 0 }

/-- Modelled from the spec: creation of a fresh session at `getSession`
time (§4.3): connector bound to the pool's SSL setting, trust flag
resolved once via `resolveTrustEnv`, bound to the calling execution
context, with a fresh instance id. -/
def SessionPool.createSession (p : SessionPool) (ctx : Nat) :
    Session × SessionPool :=
  let s : Session :=
    { id := p.nextId, ssl := p.ssl,
      trustEnv := resolveTrustEnv p.trustEnvVar p.trustEnvDefault,
      bindingCtx := ctx }
  (s, { p with session := some s, nextId := p.nextId + 1 })

/-- Modelled from the spec: `SessionPool.getSession` (§4.3 lazy
get-or-create): return the existing session while it is live and its
binding context matches the caller's; otherwise create a new one
(recording its binding context) and store it.  Each call is atomic: the
spec requires the lazy initialization to be mutex/CAS guarded (§4.3), so
concurrent callers are serialized and an interleaving is a sequence of
whole `getSession` steps.  The implementation
(`LiteLLMAiohttpTransport._get_valid_client_session`) is not under
src/. -/
def SessionPool.getSession (p : SessionPool) (ctx : Nat) :
    Session × SessionPool :=
  match p.session with
  | some s => if s.bindingCtx = ctx then (s, p) else p.createSession ctx
  | none => p.createSession ctx

/-- Modelled from the spec: `SessionPool.close` (§4.3): release the
connector/session; a total no-op when no session exists; never raises
(modelled by totality). -/
def SessionPool.close (p : SessionPool) : SessionPool :=
  { p with session := none }

/-- Modelled from the spec: `n` concurrent first callers on one pool, each
performing one guarded (hence atomic) `getSession` step in some serial
order (§4.3); returns the list of sessions the callers observe and the
final pool state. -/
def SessionPool.runConcurrentCalls (p : SessionPool) (ctx : Nat) :
    Nat → List Session × SessionPool
  | 0 => ([], p)
  | n + 1 =>
      let step := p.getSession ctx
      let rest := step.2.runConcurrentCalls ctx n
      (step.1 :: rest.1, rest.2)

/-- Modelled from the spec: the caller-facing facade (§4.4): owns the
transport handle fixed at construction; when the pooled backend was
chosen it owns the SessionPool state, otherwise there is no pool. -/
structure RequestFacade where
  config : Configuration
  pool : Option SessionPool
deriving Repr, DecidableEq

/-- Modelled from the spec: `RequestFacade.close` (§4.4): releases the
underlying transport's resources, delegating to `SessionPool.close` when
the pooled backend is owned; a no-op otherwise; never raises (modelled by
totality). -/
def RequestFacade.close (f : RequestFacade) : RequestFacade :=
  { f with pool := f.pool.map SessionPool.close }

/-- The id-freshness invariant of a pool: any stored session has an id
below the fresh-id counter.  Holds of `mk0` and is preserved by
`getSession` and `close`. -/
def SessionPool.IdsFresh (p : SessionPool) : Prop :=
  ∀ s, p.session = some s → s.id < p.nextId

end Transport

end LiteLLM

namespace LiteLLM

open Transport in
/-- Claim C1: `selectTransport` is a total decision table over the two
flags: disableAlternateTransport = true and forceIPv4 = true yields the
StandardIPv4Transport; disableAlternateTransport = true and
forceIPv4 = false yields UseSystemDefault (no override object); and
disableAlternateTransport = false yields, regardless of forceIPv4, a
PooledTransport built with the TLSContext from TLSContextBuilder. -/
theorem selectTransport_decision_table (config : Configuration) :
    (config.disableAlternateTransport = true → config.forceIPv4 = true →
      selectTransport config = .standardIPv4Transport) ∧
    (config.disableAlternateTransport = true → config.forceIPv4 = false →
      selectTransport config = .useSystemDefault) ∧
    (config.disableAlternateTransport = false →
      selectTransport config =
        .pooledTransport
          (buildContext config.sslVerify config.sslSecurityLevel).1) := by
  refine ⟨fun h1 h2 => ?_, fun h1 h2 => ?_, fun h1 => ?_⟩ <;>
    simp [selectTransport, h1] <;> simp [h2]

open Transport in
/-- Witness for C1 at a concrete configuration. -/
theorem selectTransport_decision_table_app :
    selectTransport
      { sslVerify := .flag true, sslSecurityLevel := none, forceIPv4 := true,
        disableAlternateTransport := true, trustEnvironmentDefault := false }
      = .standardIPv4Transport :=
  (selectTransport_decision_table
    { sslVerify := .flag true, sslSecurityLevel := none, forceIPv4 := true,
      disableAlternateTransport := true,
      trustEnvironmentDefault := false }).1 rfl rfl

open Transport in
/-- Claim C2: trust-environment resolution at session creation: the
environment variable equal to the literal `"True"` (case-sensitively)
forces the session trust flag to true; in every other case — present and
`"False"`, or absent — the flag equals the configured default. -/
theorem resolveTrustEnv_spec (envVar : Option String) (d : Bool) :
    (envVar = some "True" → resolveTrustEnv envVar d = true) ∧
    (envVar ≠ some "True" → resolveTrustEnv envVar d = d) ∧
    resolveTrustEnv (some "False") d = d ∧
    resolveTrustEnv none d = d ∧
    (∀ ssl ec, ((SessionPool.mk0 ssl d envVar).getSession ec).1.trustEnv
      = resolveTrustEnv envVar d) := by
  refine ⟨fun h => ?_, fun h => ?_, ?_, ?_, fun ssl ec => rfl⟩
  · simp [resolveTrustEnv, h]
  · simp [resolveTrustEnv, h]
  · simp [resolveTrustEnv]
  · simp [resolveTrustEnv]

open Transport in
/-- Witness for C2 at concrete inputs. -/
theorem resolveTrustEnv_spec_app :
    resolveTrustEnv (some "True") false = true ∧
    resolveTrustEnv (some "False") false = false :=
  ⟨(resolveTrustEnv_spec (some "True") false).1 rfl,
   (resolveTrustEnv_spec (some "False") false).2.2.1⟩

open Transport in
/-- Claim C3: when sslVerify is false, the SSL setting of the pooled
transport's connector equals the SSL setting of a connector constructed by
the underlying HTTP library with verification disabled — the same trust
decision, not merely a similar one. -/
theorem connectorSSLSetting_noverify_matches_library
    (sslSecurityLevel : Option String) :
    connectorSSLSetting (.flag false) sslSecurityLevel
      = libraryNoVerifySSLSetting := rfl

open Transport in
/-- Claim C4: every `buildContext` call sources its CA bundle from the
fixed bundled path (never the OS trust store), and the n-th call behaves
identically to the first while leaving the global state unchanged. -/
theorem buildContext_fixed_bundle_stateless {σ : Type} (gs : σ)
    (sv : SslVerify) (lvl : Option String) (n : Nat) :
    (nthBuildContext gs sv lvl n).1 = (nthBuildContext gs sv lvl 0).1 ∧
    (nthBuildContext gs sv lvl n).2 = gs ∧
    (buildContext (.flag true) lvl).1.caSource = some bundledCAPath := by
  induction n with
  | zero => exact ⟨rfl, rfl, rfl⟩
  | succ m ih =>
      refine ⟨?_, ?_, rfl⟩ <;>
        simp [nthBuildContext, buildContextCall, ih.1, ih.2]

open Transport in
/-- Claim C5: a pre-built TLS context supplied through sslVerify is used
verbatim with no CA-bundle loading, and the pooled transport's connector
(and the session the pool creates) carries exactly that context. -/
theorem buildContext_prebuilt_verbatim (ctx : TLSContext)
    (lvl : Option String) (d : Bool) (ev : Option String) (ec : Nat) :
    buildContext (.preBuilt ctx) lvl = (ctx, false) ∧
    connectorSSLSetting (.preBuilt ctx) lvl = .context ctx ∧
    ((SessionPool.mk0 (.context ctx) d ev).getSession ec).1.ssl
      = .context ctx :=
  ⟨rfl, rfl, rfl⟩

open Transport in
/-- Helper: sessions with different instance ids are different
instances. -/
theorem Transport.Session.ne_of_id_ne {s t : Session} (h : s.id ≠ t.id) :
    s ≠ t :=
  fun he => h (congrArg Session.id he)

open Transport in
/-- Claim C6: on an open pool with unchanged binding context, two
consecutive `getSession` calls return the identical session instance;
after `close`, the next `getSession` call produces a new instance distinct
from the closed one. -/
theorem getSession_reuse_and_fresh_after_close (p : SessionPool) (ec : Nat)
    (h : SessionPool.IdsFresh p) :
    ((p.getSession ec).2.getSession ec).1 = (p.getSession ec).1 ∧
    (∀ s, p.session = some s →
      ((SessionPool.close p).getSession ec).1 ≠ s) ∧
    ((SessionPool.close (p.getSession ec).2).getSession ec).1
      ≠ (p.getSession ec).1 := by
  rcases hp : p.session with _ | s
  · refine ⟨?_, ?_, ?_⟩
    · simp [SessionPool.getSession, hp, SessionPool.createSession]
    · intro s0 h0
      exact absurd h0 (by simp)
    · simp only [SessionPool.getSession, hp, SessionPool.close,
        SessionPool.createSession]
      exact Session.ne_of_id_ne (by simp)
  · by_cases hb : s.bindingCtx = ec
    · have hlt := h s hp
      refine ⟨?_, ?_, ?_⟩
      · simp [SessionPool.getSession, hp, hb]
      · intro s0 h0
        injection h0 with h0
        subst h0
        simp only [SessionPool.getSession, SessionPool.close,
          SessionPool.createSession]
        exact Session.ne_of_id_ne (by simp; omega)
      · simp only [SessionPool.getSession, hp, hb, if_pos,
          SessionPool.close, SessionPool.createSession]
        exact Session.ne_of_id_ne (by simp; omega)
    · have hlt := h s hp
      refine ⟨?_, ?_, ?_⟩
      · simp [SessionPool.getSession, hp, hb, SessionPool.createSession]
      · intro s0 h0
        injection h0 with h0
        subst h0
        simp only [SessionPool.getSession, SessionPool.close,
          SessionPool.createSession]
        exact Session.ne_of_id_ne (by simp; omega)
      · simp only [SessionPool.getSession, hp, hb, if_neg,
          SessionPool.close, SessionPool.createSession]
        exact Session.ne_of_id_ne (by simp)

open Transport in
/-- Witness for C6 at a concrete pool. -/
theorem getSession_reuse_and_fresh_after_close_app :
    (((SessionPool.mk0 .noVerify false none).getSession 0).2.getSession 0).1
      = ((SessionPool.mk0 .noVerify false none).getSession 0).1 ∧
    ((SessionPool.close
        ((SessionPool.mk0 .noVerify false none).getSession 0).2).getSession
          0).1
      ≠ ((SessionPool.mk0 .noVerify false none).getSession 0).1 :=
  ⟨(getSession_reuse_and_fresh_after_close (SessionPool.mk0 .noVerify false
      none) 0 (fun s h0 => absurd h0 (by simp [SessionPool.mk0]))).1,
   (getSession_reuse_and_fresh_after_close (SessionPool.mk0 .noVerify false
      none) 0 (fun s h0 => absurd h0 (by simp [SessionPool.mk0]))).2.2⟩

open Transport in
/-- Claim C7: `close` on a pool or facade is total (it never raises,
modelled by totality of the function), idempotent, a no-op on a pool on
which no session was ever created, and leaves no live session behind. -/
theorem close_idempotent_and_safe (p : SessionPool) (f : RequestFacade)
    (ssl : SSLSetting) (d : Bool) (ev : Option String) :
    SessionPool.close (SessionPool.close p) = SessionPool.close p ∧
    (SessionPool.close p).session = none ∧
    SessionPool.close (SessionPool.mk0 ssl d ev) = SessionPool.mk0 ssl d ev ∧
    RequestFacade.close (RequestFacade.close f) = RequestFacade.close f ∧
    (∀ q, (RequestFacade.close f).pool = some q → q.session = none) := by
  refine ⟨rfl, rfl, rfl, ?_, ?_⟩
  · rcases f with ⟨c, _ | q0⟩ <;> rfl
  · intro q hq
    rcases f with ⟨c, po⟩
    rcases po with _ | q0
    · exact absurd hq (by simp [RequestFacade.close])
    · have hq2 : SessionPool.close q0 = q := by
        simpa [RequestFacade.close] using hq
      rw [← hq2]
      rfl

open Transport in
/-- Witness for C7 at a concrete pool and facade. -/
theorem close_idempotent_and_safe_app :
    (SessionPool.close (SessionPool.mk0 .noVerify false none)).session = none ∧
    ((RequestFacade.close
        { config :=
            { sslVerify := .flag true, sslSecurityLevel := none,
              forceIPv4 := false, disableAlternateTransport := false,
              trustEnvironmentDefault := false },
          pool := some (SessionPool.mk0 .noVerify false none) }).pool.getD
        (SessionPool.mk0 .noVerify false none)).session = none :=
  ⟨(close_idempotent_and_safe (SessionPool.mk0 .noVerify false none)
      { config :=
          { sslVerify := .flag true, sslSecurityLevel := none,
            forceIPv4 := false, disableAlternateTransport := false,
            trustEnvironmentDefault := false },
        pool := some (SessionPool.mk0 .noVerify false none) }
      .noVerify false none).2.1,
   (close_idempotent_and_safe (SessionPool.mk0 .noVerify false none)
      { config :=
          { sslVerify := .flag true, sslSecurityLevel := none,
            forceIPv4 := false, disableAlternateTransport := false,
            trustEnvironmentDefault := false },
        pool := some (SessionPool.mk0 .noVerify false none) }
      .noVerify false none).2.2.2.2
     (SessionPool.close (SessionPool.mk0 .noVerify false none)) rfl⟩

open Transport in
/-- Helper for C8: on a pool whose live session is bound to the caller's
context, any number of atomic `getSession` steps all return that session
and leave the pool unchanged. -/
theorem runConcurrentCalls_of_bound (p : SessionPool) (s : Session)
    (ec : Nat) (hs : p.session = some s) (hb : s.bindingCtx = ec) (n : Nat) :
    p.runConcurrentCalls ec n = (List.replicate n s, p) := by
  induction n with
  | zero => simp [SessionPool.runConcurrentCalls]
  | succ m ih =>
      simp [SessionPool.runConcurrentCalls, SessionPool.getSession, hs, hb,
        ih, List.replicate]

open Transport in
/-- Claim C8: with the guarded (hence atomic) lazy initialization required
by the spec, any number n ≥ 1 of concurrent first `getSession` calls on a
pool with no session creates exactly one session (the counter advances by
exactly one), every caller observes that same instance, and it is the live
session afterwards. -/
theorem concurrent_first_calls_single_creation (p : SessionPool)
    (ec n : Nat) (hnone : p.session = none) (hn : 1 ≤ n) :
    (∀ s ∈ (p.runConcurrentCalls ec n).1, s = (p.createSession ec).1) ∧
    (p.runConcurrentCalls ec n).2.session = some (p.createSession ec).1 ∧
    (p.runConcurrentCalls ec n).2.nextId = p.nextId + 1 := by
  rcases n with _ | m
  · exact absurd hn (by omega)
  · have h1 : p.getSession ec = p.createSession ec := by
      simp [SessionPool.getSession, hnone]
    have hrest :=
      runConcurrentCalls_of_bound (p.createSession ec).2
        (p.createSession ec).1 ec rfl rfl m
    refine ⟨?_, ?_, ?_⟩
    · intro s hsmem
      simp only [SessionPool.runConcurrentCalls, h1, hrest] at hsmem
      rcases List.mem_cons.mp hsmem with h2 | h2
      · exact h2
      · exact List.eq_of_mem_replicate h2
    · simp only [SessionPool.runConcurrentCalls, h1, hrest]
      rfl
    · simp only [SessionPool.runConcurrentCalls, h1, hrest]
      rfl

open Transport in
/-- Witness for C8 at a concrete pool with two concurrent callers. -/
theorem concurrent_first_calls_single_creation_app :
    ((SessionPool.mk0 .noVerify false none).runConcurrentCalls 0 2).2.nextId
      = (SessionPool.mk0 .noVerify false none).nextId + 1 :=
  (concurrent_first_calls_single_creation
    (SessionPool.mk0 .noVerify false none) 0 2 rfl (by omega)).2.2

/-- C9 helper: membership in the deduplicated filter. -/
theorem MCP.mem_get_allowed_mcp_servers (key team : List String) (x : String) :
    x ∈ MCP.get_allowed_mcp_servers key team ↔
      (if team.length > 0 then x ∈ key ∧ x ∈ team else x ∈ key) := by
  unfold MCP.get_allowed_mcp_servers
  by_cases h : team.length > 0
  · simp [h, List.mem_dedup, List.mem_filter]
  · simp [h, List.mem_dedup]

open MCP in
/-- Claim C9: `get_allowed_mcp_servers` returns a duplicate-free list:
with a non-empty team list, exactly the key's servers that also appear in
the team's list; with an empty team list (or no team), exactly the key's
servers; and never a server outside the key's own permission. -/
theorem get_allowed_mcp_servers_spec (key team : List String) (x : String) :
    (get_allowed_mcp_servers key team).Nodup ∧
    (team ≠ [] →
      (x ∈ get_allowed_mcp_servers key team ↔ x ∈ key ∧ x ∈ team)) ∧
    (team = [] → (x ∈ get_allowed_mcp_servers key team ↔ x ∈ key)) ∧
    (x ∈ get_allowed_mcp_servers key team → x ∈ key) := by
  have hm := MCP.mem_get_allowed_mcp_servers key team x
  refine ⟨?_, ?_, ?_, ?_⟩
  · unfold MCP.get_allowed_mcp_servers
    exact List.nodup_dedup _
  · intro ht
    have hl : team.length > 0 := List.length_pos.mpr ht
    rw [hm, if_pos hl]
  · intro ht
    subst ht
    simpa using hm
  · intro hx
    rw [hm] at hx
    by_cases hl : team.length > 0
    · rw [if_pos hl] at hx
      exact hx.1
    · rw [if_neg hl] at hx
      exact hx

open MCP in
/-- Witness for C9 at concrete lists. -/
theorem get_allowed_mcp_servers_spec_app :
    "a" ∈ get_allowed_mcp_servers ["a", "b"] ["a"] ↔
      "a" ∈ ["a", "b"] ∧ "a" ∈ ["a"] :=
  (get_allowed_mcp_servers_spec ["a", "b"] ["a"] "a").2.1 (by simp)

open MCP in
/-- Claim C10: header processing never raises: the mcp-servers header
yields `None` when absent, unparsable, or parsed to a non-list, and the
parsed list when it is a JSON list; the API key comes from the
`x-litellm-api-key` header when that value is non-empty, falling back to
`Authorization`; and scope-header extraction yields empty headers instead
of raising on undecodable input. -/
theorem process_mcp_request_header_robustness
    (loads : String → Option JsonValue) (headers : Headers)
    (scope : List ScopeHeader) (s : String) (l : List JsonValue)
    (v : String) :
    parse_mcp_servers loads none = none ∧
    (loads s = none → parse_mcp_servers loads (some s) = none) ∧
    (∀ j, loads s = some j → (∀ xs, j ≠ .arr xs) →
      parse_mcp_servers loads (some s) = none) ∧
    (s ≠ "" → loads s = some (.arr l) →
      parse_mcp_servers loads (some s) = some l) ∧
    (Headers.get headers LITELLM_API_KEY_HEADER_NAME_PRIMARY = some v →
      v ≠ "" → get_litellm_api_key_from_headers headers = some v) ∧
    (pyTruthy (Headers.get headers LITELLM_API_KEY_HEADER_NAME_PRIMARY)
        = false →
      Headers.get headers LITELLM_API_KEY_HEADER_NAME_SECONDARY = some v →
      v ≠ "" → get_litellm_api_key_from_headers headers = some v) ∧
    (scope.any ScopeHeader.raises = true →
      safe_get_headers_from_scope scope = []) := by
  refine ⟨rfl, ?_, ?_, ?_, ?_, ?_, ?_⟩
  · intro h
    by_cases hs0 : s = ""
    · simp [parse_mcp_servers, pyTruthy, hs0]
    · simp [parse_mcp_servers, pyTruthy, hs0, h]
  · intro j hj hne
    by_cases hs0 : s = ""
    · simp [parse_mcp_servers, pyTruthy, hs0]
    · cases j with
      | arr xs => exact absurd rfl (hne xs)
      | null => simp [parse_mcp_servers, pyTruthy, hs0, hj]
      | bool b => simp [parse_mcp_servers, pyTruthy, hs0, hj]
      | num n0 => simp [parse_mcp_servers, pyTruthy, hs0, hj]
      | str t => simp [parse_mcp_servers, pyTruthy, hs0, hj]
      | obj kvs => simp [parse_mcp_servers, pyTruthy, hs0, hj]
  · intro hs0 hj
    simp [parse_mcp_servers, pyTruthy, hs0, hj]
  · intro hg hv
    simp [get_litellm_api_key_from_headers, hg, pyTruthy, hv]
  · intro hf hg hv
    rcases hpk : Headers.get headers LITELLM_API_KEY_HEADER_NAME_PRIMARY
      with _ | w
    · simp [get_litellm_api_key_from_headers, hpk, hg, pyTruthy, hv]
    · have hw : w = "" := by
        by_contra hw
        rw [hpk] at hf
        simp [pyTruthy, hw] at hf
      subst hw
      simp [get_litellm_api_key_from_headers, hpk, hg, pyTruthy, hv]
  · intro hr
    simp [safe_get_headers_from_scope, hr]

open MCP in
/-- Witness for C10 at concrete inputs: a JSON-list header parses, the
primary API-key header wins, and a malformed scope yields empty
headers. -/
theorem process_mcp_request_header_robustness_app :
    parse_mcp_servers
        (fun t => if t = "[]" then some (.arr []) else none) (some "[]")
      = some [] ∧
    get_litellm_api_key_from_headers [("x-litellm-api-key", "sk-1")]
      = some "sk-1" ∧
    safe_get_headers_from_scope [ScopeHeader.malformed] = [] :=
  ⟨(process_mcp_request_header_robustness
      (fun t => if t = "[]" then some (.arr []) else none)
      [("x-litellm-api-key", "sk-1")] [ScopeHeader.malformed] "[]" []
      "sk-1").2.2.2.1 (by simp) rfl,
   (process_mcp_request_header_robustness
      (fun t => if t = "[]" then some (.arr []) else none)
      [("x-litellm-api-key", "sk-1")] [ScopeHeader.malformed] "[]" []
      "sk-1").2.2.2.2.1 (by decide) (by simp),
   (process_mcp_request_header_robustness
      (fun t => if t = "[]" then some (.arr []) else none)
      [("x-litellm-api-key", "sk-1")] [ScopeHeader.malformed] "[]" []
      "sk-1").2.2.2.2.2.2 rfl⟩

end LiteLLM
